import Mathlib

/-!
# Verification of the occupancy-anticipation model composition layer

Shallow embedding of `occant_baselines/models/occant.py`: the output
normalizer (`softmax_2d`, `BaseModel._normalize_decoder_output`), the
ground-truth passthrough variants (`ANSDepth`, `OccAntGroundTruth`), the
pretrained-checkpoint key filter (`OccAntRGB._load_pretrained_model`), the
cross-view adapter (`crossViewStub.forward`) and the selector facade
(`OccupancyAnticipator`).

Tensors are modelled as shape records with a total data function into `ℝ`;
observation/output bundles as association lists with Python-dict update
semantics.  External neural sub-modules (encoders, decoders, the foreign
transformer) are parameters of the embedding, as the repository consumes
them but does not define them.
-/

open Finset

/-- A rank-3 tensor `(b, h, w)`: shape plus a total data function. -/
structure Tensor3 where
  b : ℕ
  h : ℕ
  w : ℕ
  data : ℕ → ℕ → ℕ → ℝ

/-- A rank-4 tensor `(b, c, h, w)`: shape plus a total data function. -/
structure Tensor4 where
  b : ℕ
  c : ℕ
  h : ℕ
  w : ℕ
  data : ℕ → ℕ → ℕ → ℕ → ℝ

/-- Logistic sigmoid, the mathematical function computed by `torch.sigmoid`
and `F.sigmoid`. -/
noncomputable def sigmoidR (x : ℝ) : ℝ := 1 / (1 + Real.exp (-x))

/-- Softmax along an axis of length `n` of the vector `f`, the mathematical
function computed by `F.softmax(·, dim=1)` on a `(b, n)` tensor, one row at
a time. -/
noncomputable def softmaxRow (n : ℕ) (f : ℕ → ℝ) (i : ℕ) : ℝ :=
  Real.exp (f i) / ∑ k ∈ range n, Real.exp (f k)

/-- `softmax_2d` from `occant.py`: flatten the `(h, w)` plane of a
`(b, h, w)` tensor to a single axis of length `h·w` (row-major, as
`rearrange "b h w -> b (h w)"` does), softmax along that axis, and restore
the `(h, w)` shape with `rearrange "b (h w) -> b h w"`. -/
noncomputable def softmax_2d (x : Tensor3) : Tensor3 where
  b := x.b
  h := x.h
  w := x.w
  data := fun bi i j =>
    softmaxRow (x.h * x.w) (fun k => x.data bi (k / x.w) (k % x.w)) (i * x.w + j)

/-- Elementwise sigmoid on a rank-3 tensor. -/
noncomputable def sigmoidT3 (x : Tensor3) : Tensor3 :=
  { x with data := fun bi i j => sigmoidR (x.data bi i j) }

/-- Elementwise sigmoid on a rank-4 tensor (`F.sigmoid`). -/
noncomputable def sigmoidT4 (x : Tensor4) : Tensor4 :=
  { x with data := fun bi ci i j => sigmoidR (x.data bi ci i j) }

/-- Flattening a row-major double sum: summing `g` over the rectangle
`range h × range w` through the index map `(i, j) ↦ i·w + j` is summing `g`
over `range (h·w)`. -/
theorem sum_range_flatten (g : ℕ → ℝ) (h w : ℕ) :
    ∑ i ∈ range h, ∑ j ∈ range w, g (i * w + j) = ∑ k ∈ range (h * w) , g k := by
  induction h with
  | zero => simp
  | succ h ih =>
      rw [Finset.sum_range_succ, ih, Nat.succ_mul, Finset.sum_range_add]

/-- A positive denominator: the sum of exponentials over a nonempty range. -/
theorem sum_exp_pos (n : ℕ) (f : ℕ → ℝ) (hn : 0 < n) :
    0 < ∑ k ∈ range n, Real.exp (f k) :=
  Finset.sum_pos (fun k _ => Real.exp_pos (f k))
    (Finset.nonempty_range_iff.mpr (Nat.pos_iff_ne_zero.mp hn))

/-- Softmax rows sum to 1 over a nonempty axis. -/
theorem sum_softmaxRow (n : ℕ) (f : ℕ → ℝ) (hn : 0 < n) :
    ∑ i ∈ range n, softmaxRow n f i = 1 := by
  unfold softmaxRow
  rw [← Finset.sum_div]
  exact div_self (ne_of_gt (sum_exp_pos n f hn))

/-! ## Output Normalizer (`BaseModel.__init__` lines 48-60,
`BaseModel._normalize_decoder_output` lines 77-81) -/

/-- The `OUTPUT_NORMALIZATION` section of the configuration: one activation
name per output channel. -/
structure OutputNormCfg where
  channel_0 : String
  channel_1 : String

/-- The three activation objects `BaseModel.__init__` can store
(`torch.sigmoid`, `softmax_2d`, `torch.nn.Identity()`). -/
inductive NormFn
  | sigmoid
  | softmax2d
  | identity
deriving DecidableEq

/-- The normalization attributes of a `BaseModel` after `__init__`;
`none` models an attribute that was never assigned. -/
structure NormState where
  normalize_channel_0 : Option NormFn
  normalize_channel_1 : Option NormFn

/-- `BaseModel.__init__` lines 48-60, statement by statement.  Note the
source's line 60: in the branch for `channel_1 == "identity"` it assigns
`self.normalize_channel_0`, not `self.normalize_channel_1`. -/
def initNormState (cfg : OutputNormCfg) : NormState :=
  let s : NormState := ⟨none, none⟩
  let s :=
    if cfg.channel_0 = "sigmoid" then { s with normalize_channel_0 := some NormFn.sigmoid }
    else if cfg.channel_0 = "softmax" then { s with normalize_channel_0 := some NormFn.softmax2d }
    else if cfg.channel_0 = "identity" then { s with normalize_channel_0 := some NormFn.identity }
    else s
  let s :=
    if cfg.channel_1 = "sigmoid" then { s with normalize_channel_1 := some NormFn.sigmoid }
    else if cfg.channel_1 = "softmax" then { s with normalize_channel_1 := some NormFn.softmax2d }
    else if cfg.channel_1 = "identity" then { s with normalize_channel_0 := some NormFn.identity }
    else s
  s

/-- Apply one of the three stored activation objects to a `(b, h, w)`
channel slice. -/
noncomputable def applyNormFn : NormFn → Tensor3 → Tensor3
  | NormFn.sigmoid, t => sigmoidT3 t
  | NormFn.softmax2d, t => softmax_2d t
  | NormFn.identity, t => t

/-- The channel slice `x[:, ch, ...]` of a rank-4 tensor. -/
def Tensor4.channel (x : Tensor4) (ch : ℕ) : Tensor3 :=
  ⟨x.b, x.h, x.w, fun bi i j => x.data bi ch i j⟩

/-- `BaseModel._normalize_decoder_output`: for every channel index `ch`
apply `self.normalize_channel_0` to the slice `x_dec[:, ch, ...]` and stack
the results along dim 1.  Returns `none` when `normalize_channel_0` was
never assigned (the `AttributeError` case). -/
noncomputable def normalize_decoder_output (s : NormState) (x : Tensor4) : Option Tensor4 :=
  s.normalize_channel_0.map (fun f =>
    { b := x.b, c := x.c, h := x.h, w := x.w,
      data := fun bi ch i j => (applyNormFn f (x.channel ch)).data bi i j })

/-! ## Bundles: Python dictionaries from string keys to rank-4 tensors -/

/-- An observation or output bundle, in insertion order. -/
abbrev Bundle := List (String × Tensor4)

/-- Dictionary lookup (`x[k]` / `k in out`), first match wins. -/
def lookupB (k : String) : Bundle → Option Tensor4
  | [] => none
  | (k', v) :: rest => if k' = k then some v else lookupB k rest

/-- Dictionary assignment `d[k] = v`: overwrite the first binding of `k` in
place, or append a fresh binding (Python dict insertion-order semantics). -/
def updateB (b : Bundle) (k : String) (v : Tensor4) : Bundle :=
  match b with
  | [] => [(k, v)]
  | (k', v') :: rest => if k' = k then (k, v) :: rest else (k', v') :: updateB rest k v

theorem lookupB_updateB_self (b : Bundle) (k : String) (v : Tensor4) :
    lookupB k (updateB b k v) = some v := by
  induction b with
  | nil => simp [updateB, lookupB]
  | cons hd tl ih =>
      by_cases h : hd.1 = k
      · simp [updateB, h, lookupB]
      · simp [updateB, h, lookupB, ih]

theorem lookupB_updateB_ne (b : Bundle) (k k' : String) (v : Tensor4) (hne : k' ≠ k) :
    lookupB k' (updateB b k v) = lookupB k' b := by
  have hks : ¬(k = k') := fun h => hne h.symm
  induction b with
  | nil => simp [updateB, lookupB, hks]
  | cons hd tl ih =>
      obtain ⟨k0, v0⟩ := hd
      by_cases h : k0 = k
      · subst h
        simp [updateB, lookupB, hks]
      · simp [updateB, h, lookupB, ih]

/-! ## `F.interpolate(mode='area')` and the passthrough variants -/

/-- `F.interpolate(t, (H, W), mode='area')`: adaptive area averaging.  The
output pixel `(i, j)` averages the input over rows
`[⌊i·h/H⌋, ⌈(i+1)·h/H⌉)` and the analogous column window. -/
noncomputable def interpolateArea (t : Tensor4) (H W : ℕ) : Tensor4 where
  b := t.b
  c := t.c
  h := H
  w := W
  data := fun bi ci i j =>
    let r0 := i * t.h / H
    let r1 := ((i + 1) * t.h + H - 1) / H
    let c0 := j * t.w / W
    let c1 := ((j + 1) * t.w + W - 1) / W
    (∑ p ∈ Finset.Ico r0 r1, ∑ q ∈ Finset.Ico c0 c1, t.data bi ci p q) /
      (((r1 - r0) * (c1 - c0) : ℕ) : ℝ)

/-- `ANSDepth._do_gp_anticipation` (lines 160-164): the output dictionary
binds `occ_estimate` to `x["ego_map_gt"]` itself; `none` models the
`KeyError` when the key is absent.  `BaseModel.forward` returns a fresh
dictionary updated with exactly these outputs, so it is the same map. -/
def ANSDepth_forward (x : Bundle) : Option Bundle :=
  match lookupB "ego_map_gt" x with
  | none => none
  | some t => some [("occ_estimate", t)]

/-- `OccAntGroundTruth._do_gp_anticipation` (lines 390-394): binds
`occ_estimate` to `x["ego_map_gt_anticipated"]` itself. -/
def OccAntGroundTruth_forward (x : Bundle) : Option Bundle :=
  match lookupB "ego_map_gt_anticipated" x with
  | none => none
  | some t => some [("occ_estimate", t)]

/-- Which sub-module attributes each variant's `_create_gp_models` (and, for
the adapter, `crossViewStub.__init__`) assigns — the owners of all learned
parameters.  `ANSDepth._create_gp_models` and
`OccAntGroundTruth._create_gp_models` are `pass`. -/
def variantModules : String → List String
  | "ans_rgb" => ["main"]
  | "ans_depth" => []
  | "occant_rgb" =>
      ["gp_rgb_encoder", "gp_rgb_projector", "gp_rgb_unet", "gp_depth_proj_estimator",
       "gp_depth_proj_encoder", "gp_merge_x5", "gp_merge_x4", "gp_merge_x3", "gp_decoder"]
  | "occant_depth" => ["gp_depth_proj_encoder", "gp_decoder"]
  | "occant_rgbd" =>
      ["gp_rgb_encoder", "gp_rgb_projector", "gp_rgb_unet", "gp_depth_proj_encoder",
       "gp_merge_x5", "gp_merge_x4", "gp_merge_x3", "gp_decoder"]
  | "occant_ground_truth" => []
  | "cross-view" => ["main"]
  | _ => []

/-! ## Checkpoint key filter (`OccAntRGB._load_pretrained_model`,
lines 261-272) -/

/-- Replace every non-overlapping occurrence of `pat` in `s`, scanning left
to right (the semantics of Python's `str.replace`), with enough fuel to
consume the whole string. -/
def replaceAllAux : ℕ → List Char → List Char → List Char → List Char
  | 0, s, _, _ => s
  | n + 1, s, pat, rep =>
      if pat ≠ [] ∧ pat.isPrefixOf s then rep ++ replaceAllAux n (s.drop pat.length) pat rep
      else
        match s with
        | [] => []
        | c :: rest => c :: replaceAllAux n rest pat rep

/-- Python's `s.replace(pat, rep)` on strings. -/
def replaceAllStr (s pat rep : String) : String :=
  ⟨replaceAllAux (s.data.length + 1) s.data pat.data rep.data⟩

/-- Does `pat` occur as a contiguous run inside the character list? -/
def listHasRun (pat : List Char) : List Char → Bool
  | [] => pat.isEmpty
  | c :: rest => pat.isPrefixOf (c :: rest) || listHasRun pat rest

/-- Python's substring test `sub in s`. -/
def containsSub (s sub : String) : Bool := listHasRun sub.data s.data

/-- The filter condition of line 267: a key survives unless it contains
`"mapper_copy"` or fails to contain `"projection_unit"`. -/
def keepKey (k : String) : Bool :=
  !(containsSub k "mapper_copy") && containsSub k "projection_unit"

/-- Lines 269-270: strip the two fixed literal prefixes from a surviving
key. -/
def stripKey (k : String) : String :=
  replaceAllStr (replaceAllStr k "module." "") "mapper.projection_unit.main.main." ""

/-- Generic dictionary assignment for checkpoint entries. -/
def dictInsert {α : Type} (d : List (String × α)) (k : String) (v : α) : List (String × α) :=
  match d with
  | [] => [(k, v)]
  | (k', v') :: rest => if k' = k then (k, v) :: rest else (k', v') :: dictInsert rest k v

/-- The loop of `_load_pretrained_model` lines 265-271: iterate over the
checkpoint entries, drop the filtered ones, strip prefixes from the rest and
assign into `cleaned_state_dict`. -/
def cleanedStateDict {α : Type} (d : List (String × α)) : List (String × α) :=
  d.foldl
    (fun acc kv => if keepKey kv.1 then dictInsert acc (stripKey kv.1) kv.2 else acc) []

/-! ## Cross-view adapter (`crossViewStub`, lines 403-419) -/

/-- `nn.Softmax2d()`: softmax over the channel dimension at every pixel. -/
noncomputable def softmaxChannels (t : Tensor4) : Tensor4 :=
  { t with data := fun bi ci i j =>
      Real.exp (t.data bi ci i j) / ∑ k ∈ range t.c, Real.exp (t.data bi k i j) }

/-- Source index used when a size-`dim` source axis is broadcast against a
destination axis: a size-1 axis is repeated. -/
def srcIdx (dim idx : ℕ) : ℕ := if dim = 1 then 0 else idx

/-- The all-zero `(b, c, h, w)` tensor (`torch.zeros` / `torch.zeros_like`). -/
noncomputable def zerosT4 (b c h w : ℕ) : Tensor4 := ⟨b, c, h, w, fun _ _ _ _ => 0⟩

/-- The `pred` tensor of lines 413-415 after both slice assignments, given
the already-softmaxed prediction `cr`: a `(2, 2, 128, 128)` zero tensor
whose channel 0 is `cr[:, 1, ...] > 0.5` and whose channel 1 is
`cr[:, 0, ...] < 0.5`, broadcast-reading `cr` along any size-1 axis. -/
noncomputable def crossViewPred (cr : Tensor4) : Tensor4 where
  b := 2
  c := 2
  h := 128
  w := 128
  data := fun bi ci i j =>
    if ci = 0 then
      (if 1 / 2 < cr.data (srcIdx cr.b bi) 1 (srcIdx cr.h i) (srcIdx cr.w j) then 1 else 0)
    else if ci = 1 then
      (if cr.data (srcIdx cr.b bi) 0 (srcIdx cr.h i) (srcIdx cr.w j) < 1 / 2 then 1 else 0)
    else 0

/-- Lines 413-418 of `crossViewStub.forward`, given the already-softmaxed
prediction `cr`: allocate `pred = torch.zeros((2, 2, 128, 128))`, assign
`pred[:, 0, ...] = cr[:, 1, ...] > 0.5` and
`pred[:, 1, ...] = cr[:, 0, ...] < 0.5`, and return the output dictionary
with an all-zero `depth_proj_estimate` of `pred`'s shape.  The two slice
assignments index channel 1 of `cr` (so `cr` needs at least 2 channels) and
broadcast-copy a `(b, h, w)` source into a `(2, 128, 128)` destination, which
is well-formed exactly when every source axis has the destination's size or
size 1; otherwise PyTorch raises, modelled as `none`. -/
noncomputable def crossViewPost (cr : Tensor4) : Option Bundle :=
  if 2 ≤ cr.c ∧ (cr.b = 2 ∨ cr.b = 1) ∧ (cr.h = 128 ∨ cr.h = 1) ∧ (cr.w = 128 ∨ cr.w = 1) then
    some [("occ_estimate", crossViewPred cr), ("depth_proj_estimate", zerosT4 2 2 128 128)]
  else none

/-- `crossViewStub.forward` (lines 410-419), parameterized by the foreign
transformer `mainModel` (`self.main`, external to this repository): look up
`x["rgb_large"]`, run the foreign model, softmax per pixel over classes, then
threshold into the hardcoded-batch-2 output. -/
noncomputable def crossViewStub_forward (mainModel : Tensor4 → Tensor4) (x : Bundle) :
    Option Bundle :=
  match lookupB "rgb_large" x with
  | none => none
  | some rgb => crossViewPost (softmaxChannels (mainModel rgb))

/-! ## Selector facade (`OccupancyAnticipator`, lines 425-500) -/

/-- The configuration fields the selector itself reads or writes: the model
type tag, the injected RGB routing key, and the yacs frozen flag. -/
structure AnticipatorConfig where
  type : String
  rgb_key : Option String
  frozen : Bool
deriving DecidableEq

/-- The seven variant classes a recognized tag can instantiate. -/
inductive VariantKind
  | ansRGB
  | ansDepth
  | occantRGB
  | occantDepth
  | occantRGBD
  | occantGroundTruth
  | crossView
deriving DecidableEq

/-- The `ValueError` raised on line 456 for an unrecognized tag. -/
inductive ConstructError
  | invalidModelType (tag : String)
deriving DecidableEq

/-- Observable construction events, in program order: configuration
mutations and the instantiation of the owned variant. -/
inductive BuildEvent
  | assignRgbKey (v : String)
  | buildVariant (k : VariantKind)
deriving DecidableEq

/-- The selector after `__init__`: the frozen configuration, the private
tag and flags, the owned variant, the RGB routing key the variant resolved
via `self.config.get("rgb_key", "rgb")` at build time, and `bev_size`. -/
structure OccupancyAnticipator where
  config : AnticipatorConfig
  _model_type : String
  _model_apply_sigmoid : Bool
  _model_pred_refit : Bool
  main : VariantKind
  mainRgbKey : String
  bev_size : ℕ × ℕ
deriving DecidableEq

/-- `config.get("rgb_key", "rgb")` as read inside `_create_gp_models`. -/
def resolveRgbKey (cfg : AnticipatorConfig) : String := cfg.rgb_key.getD "rgb"

/-- Shared tail of every successful branch: instantiate the variant (which
reads the possibly-mutated configuration), set `bev_size`, and
`cfg.freeze()`. -/
def finishBuild (cfg : AnticipatorConfig) (mt : String) (k : VariantKind)
    (sig refit : Bool) (evs : List BuildEvent) :
    Except ConstructError (OccupancyAnticipator × List BuildEvent) :=
  Except.ok
    ({ config := { cfg with frozen := true },
       _model_type := mt,
       _model_apply_sigmoid := sig,
       _model_pred_refit := refit,
       main := k,
       mainRgbKey := resolveRgbKey cfg,
       bev_size := (128, 128) },
     evs ++ [BuildEvent.buildVariant k])

/-- `OccupancyAnticipator.__init__` (lines 426-461): record the tag, default
the flags, `cfg.defrost()`, dispatch on the tag (mutating `cfg.rgb_key` for
`occant_rgb_large` and `cross-view` before the variant is built), raise on
an unrecognized tag, then `cfg.freeze()`.  The returned trace lists the
configuration mutations and the variant instantiation in program order. -/
def constructWithTrace (cfg0 : AnticipatorConfig) :
    Except ConstructError (OccupancyAnticipator × List BuildEvent) :=
  let mt := cfg0.type
  let cfg : AnticipatorConfig := { cfg0 with frozen := false }
  if mt = "ans_rgb" then
    finishBuild cfg mt VariantKind.ansRGB true false []
  else if mt = "ans_depth" then
    finishBuild cfg mt VariantKind.ansDepth true false []
  else if mt = "occant_rgb" then
    finishBuild cfg mt VariantKind.occantRGB true false []
  else if mt = "occant_depth" then
    finishBuild cfg mt VariantKind.occantDepth true false []
  else if mt = "occant_rgbd" then
    finishBuild cfg mt VariantKind.occantRGBD true false []
  else if mt = "occant_ground_truth" then
    finishBuild cfg mt VariantKind.occantGroundTruth true false []
  else if mt = "occant_rgb_large" then
    let cfg := { cfg with rgb_key := some "rgb_large" }
    finishBuild cfg mt VariantKind.occantRGB true true [BuildEvent.assignRgbKey "rgb_large"]
  else if mt = "cross-view" then
    let cfg := { cfg with rgb_key := some "rgb_large" }
    finishBuild cfg mt VariantKind.crossView false true [BuildEvent.assignRgbKey "rgb_large"]
  else
    Except.error (ConstructError.invalidModelType mt)

/-- Constructing the selector, discarding the event trace. -/
def OccupancyAnticipator.build (cfg : AnticipatorConfig) :
    Except ConstructError OccupancyAnticipator :=
  (constructWithTrace cfg).map Prod.fst

/-- The `model_type` property (lines 498-500). -/
def OccupancyAnticipator.model_type (m : OccupancyAnticipator) : String := m._model_type

/-- The tags accepted by the dispatch of lines 434-456, in source order. -/
def recognizedModelTypes : List String :=
  ["ans_rgb", "ans_depth", "occant_rgb", "occant_depth", "occant_rgbd",
   "occant_ground_truth", "occant_rgb_large", "cross-view"]

/-- One iteration of the facade loop body (lines 467-471) for a key `k`:
if present, resize to `size` by area interpolation, then sigmoid. -/
noncomputable def postKey (size : ℕ × ℕ) (acc : Bundle) (k : String) : Bundle :=
  match lookupB k acc with
  | none => acc
  | some v => updateB acc k (sigmoidT4 (interpolateArea v size.1 size.2))

/-- The facade post-processing loop of `OccupancyAnticipator.forward`
(lines 466-471): fold the per-key step over
`["occ_estimate", "depth_proj_estimate"]`. -/
noncomputable def facadePostprocess (size : ℕ × ℕ) (out : Bundle) : Bundle :=
  ["occ_estimate", "depth_proj_estimate"].foldl (postKey size) out

/-- `OccupancyAnticipator.forward` (lines 463-492) as a function of the
owned variant's output dictionary `out = self.main(x)`: post-process when
`self._model_apply_sigmoid is True`, otherwise return `out` unchanged.  (The
refit and visualization blocks of lines 473-490 are commented out in the
source.) -/
noncomputable def OccupancyAnticipator.forwardPost (m : OccupancyAnticipator)
    (out : Bundle) : Bundle :=
  if m._model_apply_sigmoid = true then facadePostprocess m.bev_size out else out

/-! ## Claim theorems -/

/-- The all-zero `(b, h, w)` tensor. -/
noncomputable def zerosT3 (b h w : ℕ) : Tensor3 := ⟨b, h, w, fun _ _ _ => 0⟩

/-- C10: `softmax_2d`, for every input tensor of shape `(b, h, w)`, flattens
the spatial plane to one axis of length `h·w`, applies softmax there and
restores the shape; the output has the same shape as the input, and for
every batch element with a nonempty spatial plane the output's spatial
values sum to exactly 1. -/
theorem c10_softmax_2d_shape_and_sum (x : Tensor3) :
    (softmax_2d x).b = x.b ∧ (softmax_2d x).h = x.h ∧ (softmax_2d x).w = x.w ∧
    (0 < x.h → 0 < x.w → ∀ bi : ℕ,
      ∑ i ∈ range x.h, ∑ j ∈ range x.w, (softmax_2d x).data bi i j = 1) := by
  refine ⟨rfl, rfl, rfl, fun hh hw bi => ?_⟩
  have h1 := sum_range_flatten
    (softmaxRow (x.h * x.w) (fun k => x.data bi (k / x.w) (k % x.w))) x.h x.w
  calc ∑ i ∈ range x.h, ∑ j ∈ range x.w, (softmax_2d x).data bi i j
      = ∑ k ∈ range (x.h * x.w),
          softmaxRow (x.h * x.w) (fun k => x.data bi (k / x.w) (k % x.w)) k := h1
    _ = 1 := sum_softmaxRow _ _ (Nat.mul_pos hh hw)

/-- Witness for C10 at the zero `(1, 1, 1)` tensor. -/
theorem c10_witness :
    0 < (zerosT3 1 1 1).h ∧ 0 < (zerosT3 1 1 1).w ∧
    ∑ i ∈ range (zerosT3 1 1 1).h, ∑ j ∈ range (zerosT3 1 1 1).w,
      (softmax_2d (zerosT3 1 1 1)).data 0 i j = 1 :=
  ⟨Nat.one_pos, Nat.one_pos,
    (c10_softmax_2d_shape_and_sum (zerosT3 1 1 1)).2.2.2 Nat.one_pos Nat.one_pos 0⟩

/-- C1 (code-bug evaluation): with the configuration selecting `sigmoid` for
channel 0 and `softmax` for channel 1, `_normalize_decoder_output` on a
2-channel zero decoder output produces value `1/2` at channel 1 (the
channel-0 sigmoid applied to 0), although the stored channel-1 function is
the spatial softmax, which on the same channel slice produces 1.  The loop
on lines 79-80 applies `self.normalize_channel_0` to every channel, so
channel 1 is not normalized with the function configured for channel 1. -/
theorem c1_channel1_gets_channel0_function :
    ((normalize_decoder_output (initNormState ⟨"sigmoid", "softmax"⟩)
        (zerosT4 1 2 1 1)).map (fun y => y.data 0 1 0 0)) = some (1 / 2)
    ∧ (initNormState ⟨"sigmoid", "softmax"⟩).normalize_channel_1 = some NormFn.softmax2d
    ∧ (applyNormFn NormFn.softmax2d ((zerosT4 1 2 1 1).channel 1)).data 0 0 0 = 1
    ∧ ((1 : ℝ) / 2) ≠ 1 := by
  refine ⟨?_, rfl, ?_, by norm_num⟩
  · have hs : sigmoidR 0 = 1 / 2 := by
      unfold sigmoidR
      rw [neg_zero, Real.exp_zero]
      norm_num
    show some (sigmoidR 0) = some (1 / 2)
    rw [hs]
  · show softmaxRow (1 * 1) _ (0 * 1 + 0) = 1
    unfold softmaxRow
    simp [zerosT4, Tensor4.channel, Real.exp_zero]

/-- C3: for every configuration whose `type` tag is unrecognized,
construction fails immediately with the `ValueError` of line 456 carrying
the offending tag, no variant is constructed (the result is not `ok`), and
the wrapper `build` surfaces the same error. -/
theorem c3_unrecognized_tag_fails (cfg : AnticipatorConfig)
    (h : cfg.type ∉ recognizedModelTypes) :
    constructWithTrace cfg = Except.error (ConstructError.invalidModelType cfg.type)
    ∧ OccupancyAnticipator.build cfg
        = Except.error (ConstructError.invalidModelType cfg.type) := by
  simp only [recognizedModelTypes, List.mem_cons, List.not_mem_nil, or_false, not_or] at h
  obtain ⟨h1, h2, h3, h4, h5, h6, h7, h8⟩ := h
  constructor
  · simp [constructWithTrace, h1, h2, h3, h4, h5, h6, h7, h8]
  · simp [OccupancyAnticipator.build, constructWithTrace, h1, h2, h3, h4, h5, h6, h7, h8,
      Except.map]

/-- Witness for C3 at the unrecognized tag `"transformer"`. -/
theorem c3_witness :
    ("transformer" : String) ∉ recognizedModelTypes
    ∧ constructWithTrace ⟨"transformer", none, false⟩
        = Except.error (ConstructError.invalidModelType "transformer") :=
  ⟨by decide, (c3_unrecognized_tag_fails ⟨"transformer", none, false⟩ (by decide)).1⟩

/-- C2 (amended): the dispatch of lines 434-456 recognizes exactly the
eight tags of `recognizedModelTypes` — the six core variant tags, the
`occant_rgb_large` tag (the full-RGB anticipator routed to the large RGB
observation) and the `cross-view` adapter tag; construction succeeds
precisely on these, and on success the `model_type` property equals the
configured tag. -/
theorem c2_eight_recognized_tags (cfg : AnticipatorConfig) :
    ((OccupancyAnticipator.build cfg).toOption.isSome = true
      ↔ cfg.type ∈ recognizedModelTypes)
    ∧ (cfg.type ∈ recognizedModelTypes →
        (OccupancyAnticipator.build cfg).map OccupancyAnticipator.model_type
          = Except.ok cfg.type) := by
  by_cases h1 : cfg.type = "ans_rgb"
  · simp [OccupancyAnticipator.build, constructWithTrace, finishBuild, h1,
      OccupancyAnticipator.model_type, recognizedModelTypes, Except.map,
      Except.toOption, Option.isSome]
  by_cases h2 : cfg.type = "ans_depth"
  · simp [OccupancyAnticipator.build, constructWithTrace, finishBuild, h1, h2,
      OccupancyAnticipator.model_type, recognizedModelTypes, Except.map,
      Except.toOption, Option.isSome]
  by_cases h3 : cfg.type = "occant_rgb"
  · simp [OccupancyAnticipator.build, constructWithTrace, finishBuild, h1, h2, h3,
      OccupancyAnticipator.model_type, recognizedModelTypes, Except.map,
      Except.toOption, Option.isSome]
  by_cases h4 : cfg.type = "occant_depth"
  · simp [OccupancyAnticipator.build, constructWithTrace, finishBuild, h1, h2, h3, h4,
      OccupancyAnticipator.model_type, recognizedModelTypes, Except.map,
      Except.toOption, Option.isSome]
  by_cases h5 : cfg.type = "occant_rgbd"
  · simp [OccupancyAnticipator.build, constructWithTrace, finishBuild, h1, h2, h3, h4, h5,
      OccupancyAnticipator.model_type, recognizedModelTypes, Except.map,
      Except.toOption, Option.isSome]
  by_cases h6 : cfg.type = "occant_ground_truth"
  · simp [OccupancyAnticipator.build, constructWithTrace, finishBuild, h1, h2, h3, h4, h5, h6,
      OccupancyAnticipator.model_type, recognizedModelTypes, Except.map,
      Except.toOption, Option.isSome]
  by_cases h7 : cfg.type = "occant_rgb_large"
  · simp [OccupancyAnticipator.build, constructWithTrace, finishBuild, h1, h2, h3, h4, h5, h6,
      h7, OccupancyAnticipator.model_type, recognizedModelTypes, Except.map,
      Except.toOption, Option.isSome]
  by_cases h8 : cfg.type = "cross-view"
  · simp [OccupancyAnticipator.build, constructWithTrace, finishBuild, h1, h2, h3, h4, h5, h6,
      h7, h8, OccupancyAnticipator.model_type, recognizedModelTypes, Except.map,
      Except.toOption, Option.isSome]
  · simp [OccupancyAnticipator.build, constructWithTrace, finishBuild, h1, h2, h3, h4, h5, h6,
      h7, h8, OccupancyAnticipator.model_type, recognizedModelTypes, Except.map,
      Except.toOption, Option.isSome]

/-- Witness for C2's amended statement at the tag `"occant_rgbd"`. -/
theorem c2_witness :
    (("occant_rgbd" : String) ∈ recognizedModelTypes)
    ∧ (OccupancyAnticipator.build ⟨"occant_rgbd", none, true⟩).map
        OccupancyAnticipator.model_type = Except.ok "occant_rgbd" :=
  ⟨by decide, (c2_eight_recognized_tags ⟨"occant_rgbd", none, true⟩).2 (by decide)⟩

/-- Counterexample to C2 as stated: `occant_rgb_large` is an eighth
recognized tag, distinct from the six core variant tags and from the
cross-view adapter tag, and it constructs successfully — so the set of
recognized `type` values does not have exactly seven elements. -/
theorem c2_counterexample :
    (OccupancyAnticipator.build ⟨"occant_rgb_large", none, true⟩).toOption.isSome = true
    ∧ (OccupancyAnticipator.build ⟨"occant_rgb_large", none, true⟩).map
        OccupancyAnticipator.model_type = Except.ok "occant_rgb_large"
    ∧ ("occant_rgb_large" : String) ∉
        ["ans_rgb", "ans_depth", "occant_rgb", "occant_depth", "occant_rgbd",
         "occant_ground_truth", "cross-view"] := by
  refine ⟨?_, ?_, by decide⟩ <;> rfl

/-- C9: on every successful construction the final configuration is frozen;
for the two tags needing the alternate observation key (`occant_rgb_large`
and `cross-view`) the trace shows exactly one mutation — `rgb_key` set to
`"rgb_large"` — happening before the owned variant is built, and the variant
resolved `"rgb_large"` as its RGB routing key; for every other recognized
tag the trace holds no mutation and the final configuration is the input
with only the frozen flag set. -/
theorem c9_config_mutation_discipline (cfg : AnticipatorConfig)
    (m : OccupancyAnticipator) (tr : List BuildEvent)
    (hok : constructWithTrace cfg = Except.ok (m, tr)) :
    m.config.frozen = true
    ∧ ((cfg.type = "occant_rgb_large" ∨ cfg.type = "cross-view") →
        tr = [BuildEvent.assignRgbKey "rgb_large", BuildEvent.buildVariant m.main]
        ∧ m.config = { cfg with rgb_key := some "rgb_large", frozen := true }
        ∧ m.mainRgbKey = "rgb_large")
    ∧ (¬(cfg.type = "occant_rgb_large" ∨ cfg.type = "cross-view") →
        tr = [BuildEvent.buildVariant m.main]
        ∧ m.config = { cfg with frozen := true }
        ∧ m.mainRgbKey = resolveRgbKey cfg) := by
  by_cases h1 : cfg.type = "ans_rgb"
  · simp [constructWithTrace, finishBuild, h1] at hok
    obtain ⟨hm, htr⟩ := hok
    subst hm htr
    refine ⟨rfl, fun hcase => ?_, fun _ => ⟨rfl, by rw [h1], rfl⟩⟩
    rcases hcase with hc | hc <;> rw [h1] at hc <;> exact absurd hc (by decide)
  by_cases h2 : cfg.type = "ans_depth"
  · simp [constructWithTrace, finishBuild, h1, h2] at hok
    obtain ⟨hm, htr⟩ := hok
    subst hm htr
    refine ⟨rfl, fun hcase => ?_, fun _ => ⟨rfl, by rw [h2], rfl⟩⟩
    rcases hcase with hc | hc <;> rw [h2] at hc <;> exact absurd hc (by decide)
  by_cases h3 : cfg.type = "occant_rgb"
  · simp [constructWithTrace, finishBuild, h1, h2, h3] at hok
    obtain ⟨hm, htr⟩ := hok
    subst hm htr
    refine ⟨rfl, fun hcase => ?_, fun _ => ⟨rfl, by rw [h3], rfl⟩⟩
    rcases hcase with hc | hc <;> rw [h3] at hc <;> exact absurd hc (by decide)
  by_cases h4 : cfg.type = "occant_depth"
  · simp [constructWithTrace, finishBuild, h1, h2, h3, h4] at hok
    obtain ⟨hm, htr⟩ := hok
    subst hm htr
    refine ⟨rfl, fun hcase => ?_, fun _ => ⟨rfl, by rw [h4], rfl⟩⟩
    rcases hcase with hc | hc <;> rw [h4] at hc <;> exact absurd hc (by decide)
  by_cases h5 : cfg.type = "occant_rgbd"
  · simp [constructWithTrace, finishBuild, h1, h2, h3, h4, h5] at hok
    obtain ⟨hm, htr⟩ := hok
    subst hm htr
    refine ⟨rfl, fun hcase => ?_, fun _ => ⟨rfl, by rw [h5], rfl⟩⟩
    rcases hcase with hc | hc <;> rw [h5] at hc <;> exact absurd hc (by decide)
  by_cases h6 : cfg.type = "occant_ground_truth"
  · simp [constructWithTrace, finishBuild, h1, h2, h3, h4, h5, h6] at hok
    obtain ⟨hm, htr⟩ := hok
    subst hm htr
    refine ⟨rfl, fun hcase => ?_, fun _ => ⟨rfl, by rw [h6], rfl⟩⟩
    rcases hcase with hc | hc <;> rw [h6] at hc <;> exact absurd hc (by decide)
  by_cases h7 : cfg.type = "occant_rgb_large"
  · simp [constructWithTrace, finishBuild, h1, h2, h3, h4, h5, h6, h7] at hok
    obtain ⟨hm, htr⟩ := hok
    subst hm htr
    exact ⟨rfl, fun _ => ⟨rfl, by rw [h7], rfl⟩, fun hn => absurd (Or.inl h7) hn⟩
  by_cases h8 : cfg.type = "cross-view"
  · simp [constructWithTrace, finishBuild, h1, h2, h3, h4, h5, h6, h7, h8] at hok
    obtain ⟨hm, htr⟩ := hok
    subst hm htr
    exact ⟨rfl, fun _ => ⟨rfl, by rw [h8], rfl⟩, fun hn => absurd (Or.inr h8) hn⟩
  · simp [constructWithTrace, finishBuild, h1, h2, h3, h4, h5, h6, h7, h8] at hok

/-- Witness for C9 at the `cross-view` tag. -/
theorem c9_witness :
    constructWithTrace ⟨"cross-view", none, true⟩
      = Except.ok
          ({ config := ⟨"cross-view", some "rgb_large", true⟩,
             _model_type := "cross-view",
             _model_apply_sigmoid := false,
             _model_pred_refit := true,
             main := VariantKind.crossView,
             mainRgbKey := "rgb_large",
             bev_size := (128, 128) },
           [BuildEvent.assignRgbKey "rgb_large", BuildEvent.buildVariant VariantKind.crossView])
    ∧ ({ config := ⟨"cross-view", some "rgb_large", true⟩,
         _model_type := "cross-view",
         _model_apply_sigmoid := false,
         _model_pred_refit := true,
         main := VariantKind.crossView,
         mainRgbKey := "rgb_large",
         bev_size := (128, 128) } : OccupancyAnticipator).config.frozen = true := by
  refine ⟨rfl, ?_⟩
  exact (c9_config_mutation_discipline ⟨"cross-view", none, true⟩
    { config := ⟨"cross-view", some "rgb_large", true⟩,
      _model_type := "cross-view",
      _model_apply_sigmoid := false,
      _model_pred_refit := true,
      main := VariantKind.crossView,
      mainRgbKey := "rgb_large",
      bev_size := (128, 128) }
    [BuildEvent.assignRgbKey "rgb_large", BuildEvent.buildVariant VariantKind.crossView]
    rfl).1

/-- C7: the ground-truth passthrough variants return, prior to any facade
post-processing, `occ_estimate` bound to the very tensor stored under the
relevant input key (`ego_map_gt` for `ANSDepth`, `ego_map_gt_anticipated`
for `OccAntGroundTruth`), and their `_create_gp_models` register no
sub-modules, hence no learned parameters. -/
theorem c7_passthrough_identity (x : Bundle) (t u : Tensor4) :
    (lookupB "ego_map_gt" x = some t →
      ∃ out, ANSDepth_forward x = some out ∧ lookupB "occ_estimate" out = some t)
    ∧ (lookupB "ego_map_gt_anticipated" x = some u →
      ∃ out, OccAntGroundTruth_forward x = some out
        ∧ lookupB "occ_estimate" out = some u)
    ∧ variantModules "ans_depth" = []
    ∧ variantModules "occant_ground_truth" = [] := by
  refine ⟨fun h => ?_, fun h => ?_, rfl, rfl⟩
  · refine ⟨[("occ_estimate", t)], ?_, ?_⟩
    · simp [ANSDepth_forward, h]
    · simp [lookupB]
  · refine ⟨[("occ_estimate", u)], ?_, ?_⟩
    · simp [OccAntGroundTruth_forward, h]
    · simp [lookupB]

/-- Witness for C7 at a one-key bundle. -/
theorem c7_witness :
    lookupB "ego_map_gt" [("ego_map_gt", zerosT4 1 2 128 128)] = some (zerosT4 1 2 128 128)
    ∧ ∃ out, ANSDepth_forward [("ego_map_gt", zerosT4 1 2 128 128)] = some out
        ∧ lookupB "occ_estimate" out = some (zerosT4 1 2 128 128) :=
  ⟨rfl,
    (c7_passthrough_identity [("ego_map_gt", zerosT4 1 2 128 128)]
      (zerosT4 1 2 128 128) (zerosT4 1 2 128 128)).1 rfl⟩

/-- The body of the checkpoint-filter loop as a `filterMap` step: drop a key
containing `"mapper_copy"` or lacking `"projection_unit"`, strip the two
fixed prefixes from the rest. -/
def cleanStep {α : Type} (kv : String × α) : Option (String × α) :=
  if keepKey kv.1 then some (stripKey kv.1, kv.2) else none

theorem cleanedStateDict_foldl_aux {α : Type} (d : List (String × α))
    (acc : List (String × α)) :
    d.foldl
        (fun acc kv => if keepKey kv.1 then dictInsert acc (stripKey kv.1) kv.2 else acc)
        acc
      = (d.filterMap cleanStep).foldl (fun acc kv => dictInsert acc kv.1 kv.2) acc := by
  induction d generalizing acc with
  | nil => rfl
  | cons hd tl ih =>
      obtain ⟨k, v⟩ := hd
      by_cases h : keepKey k
      · simp [List.filterMap_cons, cleanStep, h, List.foldl_cons, ih]
      · simp [List.filterMap_cons, cleanStep, h, List.foldl_cons, ih]

/-- C5: the checkpoint filter retains exactly the entries whose key does not
contain `"mapper_copy"` and does contain `"projection_unit"`, strips the two
fixed literal prefixes `"module."` and
`"mapper.projection_unit.main.main."` from each surviving key before
insertion (first conjunct: the loop equals filter-then-strip-then-insert);
on the synthetic checkpoint of the claim only a key derived from the first
entry survives (second conjunct). -/
theorem c5_checkpoint_filter :
    (∀ {α : Type} (d : List (String × α)),
      cleanedStateDict d
        = (d.filterMap cleanStep).foldl (fun acc kv => dictInsert acc kv.1 kv.2) [])
    ∧ cleanedStateDict
        [("a.projection_unit.w", (1 : ℕ)), ("a.mapper_copy.projection_unit.w", 2),
         ("b.other.w", 3)]
      = [("a.projection_unit.w", 1)] := by
  constructor
  · intro α d
    exact cleanedStateDict_foldl_aux d []
  · decide

theorem lookupB_postKey_self (size : ℕ × ℕ) (acc : Bundle) (k : String) :
    lookupB k (postKey size acc k)
      = (lookupB k acc).map (fun v => sigmoidT4 (interpolateArea v size.1 size.2)) := by
  cases h : lookupB k acc with
  | none => simp [postKey, h]
  | some v => simp [postKey, h, lookupB_updateB_self]

theorem lookupB_postKey_ne (size : ℕ × ℕ) (acc : Bundle) (k k' : String)
    (hne : k' ≠ k) :
    lookupB k' (postKey size acc k) = lookupB k' acc := by
  cases h : lookupB k acc with
  | none => simp [postKey, h]
  | some v => simp [postKey, h, lookupB_updateB_ne _ _ _ _ hne]

/-- `bev_size` and the post-processing flag of every successfully built
selector: `_model_apply_sigmoid` is `False` exactly for the `cross-view`
adapter (line 453), `True` for every other recognized tag (line 431). -/
theorem build_flags (cfg : AnticipatorConfig) (m : OccupancyAnticipator)
    (h : OccupancyAnticipator.build cfg = Except.ok m) :
    m.bev_size = (128, 128)
    ∧ (cfg.type = "cross-view" → m._model_apply_sigmoid = false)
    ∧ (cfg.type ≠ "cross-view" → m._model_apply_sigmoid = true) := by
  by_cases h1 : cfg.type = "ans_rgb"
  · simp [OccupancyAnticipator.build, constructWithTrace, finishBuild, Except.map, h1] at h
    subst h
    exact ⟨rfl, fun hc => absurd hc (by rw [h1]; decide), fun _ => rfl⟩
  by_cases h2 : cfg.type = "ans_depth"
  · simp [OccupancyAnticipator.build, constructWithTrace, finishBuild, Except.map, h1, h2] at h
    subst h
    exact ⟨rfl, fun hc => absurd hc (by rw [h2]; decide), fun _ => rfl⟩
  by_cases h3 : cfg.type = "occant_rgb"
  · simp [OccupancyAnticipator.build, constructWithTrace, finishBuild, Except.map, h1, h2,
      h3] at h
    subst h
    exact ⟨rfl, fun hc => absurd hc (by rw [h3]; decide), fun _ => rfl⟩
  by_cases h4 : cfg.type = "occant_depth"
  · simp [OccupancyAnticipator.build, constructWithTrace, finishBuild, Except.map, h1, h2,
      h3, h4] at h
    subst h
    exact ⟨rfl, fun hc => absurd hc (by rw [h4]; decide), fun _ => rfl⟩
  by_cases h5 : cfg.type = "occant_rgbd"
  · simp [OccupancyAnticipator.build, constructWithTrace, finishBuild, Except.map, h1, h2,
      h3, h4, h5] at h
    subst h
    exact ⟨rfl, fun hc => absurd hc (by rw [h5]; decide), fun _ => rfl⟩
  by_cases h6 : cfg.type = "occant_ground_truth"
  · simp [OccupancyAnticipator.build, constructWithTrace, finishBuild, Except.map, h1, h2,
      h3, h4, h5, h6] at h
    subst h
    exact ⟨rfl, fun hc => absurd hc (by rw [h6]; decide), fun _ => rfl⟩
  by_cases h7 : cfg.type = "occant_rgb_large"
  · simp [OccupancyAnticipator.build, constructWithTrace, finishBuild, Except.map, h1, h2,
      h3, h4, h5, h6, h7] at h
    subst h
    exact ⟨rfl, fun hc => absurd hc (by rw [h7]; decide), fun _ => rfl⟩
  by_cases h8 : cfg.type = "cross-view"
  · simp [OccupancyAnticipator.build, constructWithTrace, finishBuild, Except.map, h1, h2,
      h3, h4, h5, h6, h7, h8] at h
    subst h
    exact ⟨rfl, fun _ => rfl, fun hc => absurd h8 hc⟩
  · simp [OccupancyAnticipator.build, constructWithTrace, finishBuild, Except.map, h1, h2,
      h3, h4, h5, h6, h7, h8] at h

/-- C4: for every selector built from a non-`cross-view` recognized tag,
the facade forward post-processes exactly the keys `occ_estimate` and
`depth_proj_estimate` when present — replacing each value by the sigmoid of
its area resize to `128×128`, so the processed `occ_estimate` keeps its
batch and channel sizes and acquires spatial size `128×128` (shape
`(B, 2, 128, 128)` for the 2-channel outputs of the data model) — adds no
keys, and leaves every other entry unchanged; for the `cross-view` tag the
facade step is skipped entirely. -/
theorem c4_facade_postprocessing :
    (∀ (cfg : AnticipatorConfig) (m : OccupancyAnticipator) (out : Bundle) (t : Tensor4),
      OccupancyAnticipator.build cfg = Except.ok m →
      cfg.type ≠ "cross-view" →
      lookupB "occ_estimate" out = some t →
      lookupB "occ_estimate" (m.forwardPost out)
          = some (sigmoidT4 (interpolateArea t 128 128))
      ∧ (sigmoidT4 (interpolateArea t 128 128)).b = t.b
      ∧ (sigmoidT4 (interpolateArea t 128 128)).c = t.c
      ∧ (sigmoidT4 (interpolateArea t 128 128)).h = 128
      ∧ (sigmoidT4 (interpolateArea t 128 128)).w = 128
      ∧ (∀ u, lookupB "depth_proj_estimate" out = some u →
          lookupB "depth_proj_estimate" (m.forwardPost out)
            = some (sigmoidT4 (interpolateArea u 128 128)))
      ∧ (lookupB "depth_proj_estimate" out = none →
          lookupB "depth_proj_estimate" (m.forwardPost out) = none)
      ∧ (∀ k, k ≠ "occ_estimate" → k ≠ "depth_proj_estimate" →
          lookupB k (m.forwardPost out) = lookupB k out))
    ∧ (∀ (cfg : AnticipatorConfig) (m : OccupancyAnticipator) (out : Bundle),
        OccupancyAnticipator.build cfg = Except.ok m →
        cfg.type = "cross-view" →
        m.forwardPost out = out) := by
  constructor
  · intro cfg m out t hok hncv hocc
    obtain ⟨hbev, -, hsig⟩ := build_flags cfg m hok
    have hfp : m.forwardPost out
        = postKey (128, 128) (postKey (128, 128) out "occ_estimate")
            "depth_proj_estimate" := by
      rw [OccupancyAnticipator.forwardPost, hsig hncv, hbev]
      rfl
    have hod : ("occ_estimate" : String) ≠ "depth_proj_estimate" := by decide
    have hdo : ("depth_proj_estimate" : String) ≠ "occ_estimate" := by decide
    refine ⟨?_, rfl, rfl, rfl, rfl, ?_, ?_, ?_⟩
    · rw [hfp, lookupB_postKey_ne _ _ _ _ hod, lookupB_postKey_self, hocc]
      rfl
    · intro u hu
      rw [hfp, lookupB_postKey_self, lookupB_postKey_ne _ _ _ _ hdo, hu]
      rfl
    · intro hu
      rw [hfp, lookupB_postKey_self, lookupB_postKey_ne _ _ _ _ hdo, hu]
      rfl
    · intro k hko hkd
      rw [hfp, lookupB_postKey_ne _ _ _ _ hkd, lookupB_postKey_ne _ _ _ _ hko]
  · intro cfg m out hok hcv
    obtain ⟨-, hsig, -⟩ := build_flags cfg m hok
    rw [OccupancyAnticipator.forwardPost, hsig hcv]
    rfl

/-- Witness for C4 at an `ans_depth` selector and a two-entry output
bundle. -/
theorem c4_witness :
    OccupancyAnticipator.build ⟨"ans_depth", none, true⟩
      = Except.ok
          { config := ⟨"ans_depth", none, true⟩,
            _model_type := "ans_depth",
            _model_apply_sigmoid := true,
            _model_pred_refit := false,
            main := VariantKind.ansDepth,
            mainRgbKey := "rgb",
            bev_size := (128, 128) }
    ∧ ("ans_depth" : String) ≠ "cross-view"
    ∧ lookupB "occ_estimate" [("occ_estimate", zerosT4 3 2 7 9), ("rgb", zerosT4 3 3 4 4)]
        = some (zerosT4 3 2 7 9)
    ∧ lookupB "rgb"
        (OccupancyAnticipator.forwardPost
          { config := ⟨"ans_depth", none, true⟩,
            _model_type := "ans_depth",
            _model_apply_sigmoid := true,
            _model_pred_refit := false,
            main := VariantKind.ansDepth,
            mainRgbKey := "rgb",
            bev_size := (128, 128) }
          [("occ_estimate", zerosT4 3 2 7 9), ("rgb", zerosT4 3 3 4 4)])
      = lookupB "rgb" [("occ_estimate", zerosT4 3 2 7 9), ("rgb", zerosT4 3 3 4 4)] := by
  refine ⟨rfl, by decide, rfl, ?_⟩
  exact ((c4_facade_postprocessing.1 ⟨"ans_depth", none, true⟩
    { config := ⟨"ans_depth", none, true⟩,
      _model_type := "ans_depth",
      _model_apply_sigmoid := true,
      _model_pred_refit := false,
      main := VariantKind.ansDepth,
      mainRgbKey := "rgb",
      bev_size := (128, 128) }
    [("occ_estimate", zerosT4 3 2 7 9), ("rgb", zerosT4 3 3 4 4)]
    (zerosT4 3 2 7 9) rfl (by decide) rfl).2.2.2.2.2.2.2) "rgb" (by decide) (by decide)

theorem indicator_eq_one_iff (P : Prop) [Decidable P] :
    ((if P then (1 : ℝ) else 0) = 1) ↔ P := by
  by_cases h : P <;> simp [h]

theorem indicator_eq_zero_iff (P : Prop) [Decidable P] :
    ((if P then (1 : ℝ) else 0) = 0) ↔ ¬P := by
  by_cases h : P <;> simp [h]

theorem softmax2_eq_half (a : ℝ) : Real.exp a / (Real.exp a + Real.exp a) = 1 / 2 := by
  rw [← two_mul]
  rw [div_eq_div_iff (by positivity) (by norm_num)]
  ring

/-- C6: on a foreign-model output of shape `(2, 2, 128, 128)`, the adapter's
forward applies the per-pixel 2-class softmax and thresholds it into a
binary two-channel map: channel 0 carries 1 exactly where the class-1
probability is strictly above `0.5`, channel 1 carries 1 exactly where the
class-0 probability is strictly below `0.5`; at a pixel whose two logits are
equal both probabilities are exactly `0.5` and neither strict comparison
fires, so both channels carry 0 there; and `depth_proj_estimate` is bound to
an all-zero tensor of the same `(2, 2, 128, 128)` shape. -/
theorem c6_crossview_thresholding (f : Tensor4 → Tensor4) (x : Bundle) (rgb : Tensor4)
    (hrgb : lookupB "rgb_large" x = some rgb)
    (hb : (f rgb).b = 2) (hc : (f rgb).c = 2)
    (hh : (f rgb).h = 128) (hw : (f rgb).w = 128) :
    ∃ occ dep,
      crossViewStub_forward f x
        = some [("occ_estimate", occ), ("depth_proj_estimate", dep)]
      ∧ occ.b = 2 ∧ occ.c = 2 ∧ occ.h = 128 ∧ occ.w = 128
      ∧ dep.b = 2 ∧ dep.c = 2 ∧ dep.h = 128 ∧ dep.w = 128
      ∧ (∀ bi ci i j, dep.data bi ci i j = 0)
      ∧ (∀ bi i j,
          ((occ.data bi 0 i j = 1 ↔
              1 / 2 < (softmaxChannels (f rgb)).data bi 1 i j)
            ∧ (occ.data bi 0 i j = 0 ↔
              ¬ 1 / 2 < (softmaxChannels (f rgb)).data bi 1 i j))
          ∧ ((occ.data bi 1 i j = 1 ↔
              (softmaxChannels (f rgb)).data bi 0 i j < 1 / 2)
            ∧ (occ.data bi 1 i j = 0 ↔
              ¬ (softmaxChannels (f rgb)).data bi 0 i j < 1 / 2)))
      ∧ (∀ bi i j, (f rgb).data bi 0 i j = (f rgb).data bi 1 i j →
          occ.data bi 0 i j = 0 ∧ occ.data bi 1 i j = 0) := by
  have h1 : crossViewStub_forward f x = crossViewPost (softmaxChannels (f rgb)) := by
    unfold crossViewStub_forward
    rw [hrgb]
  have hguard : 2 ≤ (softmaxChannels (f rgb)).c
      ∧ ((softmaxChannels (f rgb)).b = 2 ∨ (softmaxChannels (f rgb)).b = 1)
      ∧ ((softmaxChannels (f rgb)).h = 128 ∨ (softmaxChannels (f rgb)).h = 1)
      ∧ ((softmaxChannels (f rgb)).w = 128 ∨ (softmaxChannels (f rgb)).w = 1) := by
    refine ⟨?_, Or.inl ?_, Or.inl ?_, Or.inl ?_⟩
    · show 2 ≤ (f rgb).c
      rw [hc]
    · exact hb
    · exact hh
    · exact hw
  have hsum : ∀ bi i j, ∑ k ∈ range (f rgb).c, Real.exp ((f rgb).data bi k i j)
      = Real.exp ((f rgb).data bi 0 i j) + Real.exp ((f rgb).data bi 1 i j) := by
    intro bi i j
    rw [hc, Finset.sum_range_succ, Finset.sum_range_one]
  refine ⟨crossViewPred (softmaxChannels (f rgb)), zerosT4 2 2 128 128, ?_,
    rfl, rfl, rfl, rfl, rfl, rfl, rfl, rfl, fun _ _ _ _ => rfl, ?_, ?_⟩
  · rw [h1, crossViewPost, if_pos hguard]
  · intro bi i j
    have hsb : srcIdx (softmaxChannels (f rgb)).b bi = bi := by
      show srcIdx (f rgb).b bi = bi
      rw [hb, srcIdx]
      norm_num
    have hsh : srcIdx (softmaxChannels (f rgb)).h i = i := by
      show srcIdx (f rgb).h i = i
      rw [hh, srcIdx]
      norm_num
    have hsw : srcIdx (softmaxChannels (f rgb)).w j = j := by
      show srcIdx (f rgb).w j = j
      rw [hw, srcIdx]
      norm_num
    refine ⟨⟨?_, ?_⟩, ?_, ?_⟩
    · show ((if (0 : ℕ) = 0 then
          (if 1 / 2 < (softmaxChannels (f rgb)).data (srcIdx (softmaxChannels (f rgb)).b bi) 1
              (srcIdx (softmaxChannels (f rgb)).h i) (srcIdx (softmaxChannels (f rgb)).w j)
            then (1 : ℝ) else 0)
          else if (0 : ℕ) = 1 then
            (if (softmaxChannels (f rgb)).data (srcIdx (softmaxChannels (f rgb)).b bi) 0
                (srcIdx (softmaxChannels (f rgb)).h i) (srcIdx (softmaxChannels (f rgb)).w j)
                < 1 / 2 then (1 : ℝ) else 0)
          else 0) = 1)
        ↔ 1 / 2 < (softmaxChannels (f rgb)).data bi 1 i j
      rw [if_pos rfl, hsb, hsh, hsw]
      exact indicator_eq_one_iff _
    · show ((if (0 : ℕ) = 0 then
          (if 1 / 2 < (softmaxChannels (f rgb)).data (srcIdx (softmaxChannels (f rgb)).b bi) 1
              (srcIdx (softmaxChannels (f rgb)).h i) (srcIdx (softmaxChannels (f rgb)).w j)
            then (1 : ℝ) else 0)
          else if (0 : ℕ) = 1 then
            (if (softmaxChannels (f rgb)).data (srcIdx (softmaxChannels (f rgb)).b bi) 0
                (srcIdx (softmaxChannels (f rgb)).h i) (srcIdx (softmaxChannels (f rgb)).w j)
                < 1 / 2 then (1 : ℝ) else 0)
          else 0) = 0)
        ↔ ¬ 1 / 2 < (softmaxChannels (f rgb)).data bi 1 i j
      rw [if_pos rfl, hsb, hsh, hsw]
      exact indicator_eq_zero_iff _
    · show ((if (1 : ℕ) = 0 then
          (if 1 / 2 < (softmaxChannels (f rgb)).data (srcIdx (softmaxChannels (f rgb)).b bi) 1
              (srcIdx (softmaxChannels (f rgb)).h i) (srcIdx (softmaxChannels (f rgb)).w j)
            then (1 : ℝ) else 0)
          else if (1 : ℕ) = 1 then
            (if (softmaxChannels (f rgb)).data (srcIdx (softmaxChannels (f rgb)).b bi) 0
                (srcIdx (softmaxChannels (f rgb)).h i) (srcIdx (softmaxChannels (f rgb)).w j)
                < 1 / 2 then (1 : ℝ) else 0)
          else 0) = 1)
        ↔ (softmaxChannels (f rgb)).data bi 0 i j < 1 / 2
      rw [if_neg (by norm_num), if_pos rfl, hsb, hsh, hsw]
      exact indicator_eq_one_iff _
    · show ((if (1 : ℕ) = 0 then
          (if 1 / 2 < (softmaxChannels (f rgb)).data (srcIdx (softmaxChannels (f rgb)).b bi) 1
              (srcIdx (softmaxChannels (f rgb)).h i) (srcIdx (softmaxChannels (f rgb)).w j)
            then (1 : ℝ) else 0)
          else if (1 : ℕ) = 1 then
            (if (softmaxChannels (f rgb)).data (srcIdx (softmaxChannels (f rgb)).b bi) 0
                (srcIdx (softmaxChannels (f rgb)).h i) (srcIdx (softmaxChannels (f rgb)).w j)
                < 1 / 2 then (1 : ℝ) else 0)
          else 0) = 0)
        ↔ ¬ (softmaxChannels (f rgb)).data bi 0 i j < 1 / 2
      rw [if_neg (by norm_num), if_pos rfl, hsb, hsh, hsw]
      exact indicator_eq_zero_iff _
  · intro bi i j heq
    have h0 : (softmaxChannels (f rgb)).data bi 0 i j = 1 / 2 := by
      show Real.exp ((f rgb).data bi 0 i j)
          / ∑ k ∈ range (f rgb).c, Real.exp ((f rgb).data bi k i j) = 1 / 2
      rw [hsum bi i j, heq]
      exact softmax2_eq_half _
    have h12 : (softmaxChannels (f rgb)).data bi 1 i j = 1 / 2 := by
      show Real.exp ((f rgb).data bi 1 i j)
          / ∑ k ∈ range (f rgb).c, Real.exp ((f rgb).data bi k i j) = 1 / 2
      rw [hsum bi i j, heq]
      exact softmax2_eq_half _
    have hsb : srcIdx (softmaxChannels (f rgb)).b bi = bi := by
      show srcIdx (f rgb).b bi = bi
      rw [hb, srcIdx]
      norm_num
    have hsh : srcIdx (softmaxChannels (f rgb)).h i = i := by
      show srcIdx (f rgb).h i = i
      rw [hh, srcIdx]
      norm_num
    have hsw : srcIdx (softmaxChannels (f rgb)).w j = j := by
      show srcIdx (f rgb).w j = j
      rw [hw, srcIdx]
      norm_num
    constructor
    · show (if (0 : ℕ) = 0 then
          (if 1 / 2 < (softmaxChannels (f rgb)).data (srcIdx (softmaxChannels (f rgb)).b bi) 1
              (srcIdx (softmaxChannels (f rgb)).h i) (srcIdx (softmaxChannels (f rgb)).w j)
            then (1 : ℝ) else 0)
          else if (0 : ℕ) = 1 then
            (if (softmaxChannels (f rgb)).data (srcIdx (softmaxChannels (f rgb)).b bi) 0
                (srcIdx (softmaxChannels (f rgb)).h i) (srcIdx (softmaxChannels (f rgb)).w j)
                < 1 / 2 then (1 : ℝ) else 0)
          else 0) = 0
      rw [if_pos rfl, hsb, hsh, hsw, h12]
      simp
    · show (if (1 : ℕ) = 0 then
          (if 1 / 2 < (softmaxChannels (f rgb)).data (srcIdx (softmaxChannels (f rgb)).b bi) 1
              (srcIdx (softmaxChannels (f rgb)).h i) (srcIdx (softmaxChannels (f rgb)).w j)
            then (1 : ℝ) else 0)
          else if (1 : ℕ) = 1 then
            (if (softmaxChannels (f rgb)).data (srcIdx (softmaxChannels (f rgb)).b bi) 0
                (srcIdx (softmaxChannels (f rgb)).h i) (srcIdx (softmaxChannels (f rgb)).w j)
                < 1 / 2 then (1 : ℝ) else 0)
          else 0) = 0
      rw [if_neg (by norm_num), if_pos rfl, hsb, hsh, hsw, h0]
      simp

/-- Witness for C6 at a constant foreign model of output shape
`(2, 2, 128, 128)`. -/
theorem c6_witness :
    lookupB "rgb_large" [("rgb_large", zerosT4 2 3 128 128)] = some (zerosT4 2 3 128 128)
    ∧ (zerosT4 2 2 128 128).b = 2 ∧ (zerosT4 2 2 128 128).c = 2
    ∧ (zerosT4 2 2 128 128).h = 128 ∧ (zerosT4 2 2 128 128).w = 128
    ∧ ∃ occ dep,
        crossViewStub_forward (fun _ => zerosT4 2 2 128 128)
            [("rgb_large", zerosT4 2 3 128 128)]
          = some [("occ_estimate", occ), ("depth_proj_estimate", dep)] := by
  refine ⟨rfl, rfl, rfl, rfl, rfl, ?_⟩
  obtain ⟨occ, dep, h, -⟩ := c6_crossview_thresholding (fun _ => zerosT4 2 2 128 128)
    [("rgb_large", zerosT4 2 3 128 128)] (zerosT4 2 3 128 128) rfl rfl rfl rfl rfl
  exact ⟨occ, dep, h⟩

/-- C8 (amended): the adapter allocates its outputs with a hardcoded batch
dimension of 2, so on every successful forward both `occ_estimate` and
`depth_proj_estimate` have shape `(2, 2, 128, 128)` regardless of the
input's batch size; the thresholded slice assignment is well-formed not only
for foreign-output batch size 2 but whenever that batch size broadcasts into
the size-2 destination axis, i.e. is 2 or 1, and it fails for every other
batch size. -/
theorem c8_hardcoded_batch_two (f : Tensor4 → Tensor4) (x : Bundle) (rgb : Tensor4)
    (hrgb : lookupB "rgb_large" x = some rgb) :
    ((f rgb).b ≠ 1 → (f rgb).b ≠ 2 → crossViewStub_forward f x = none)
    ∧ (∀ out, crossViewStub_forward f x = some out →
        ∃ occ dep, lookupB "occ_estimate" out = some occ
          ∧ lookupB "depth_proj_estimate" out = some dep
          ∧ occ.b = 2 ∧ occ.c = 2 ∧ occ.h = 128 ∧ occ.w = 128
          ∧ dep.b = 2 ∧ dep.c = 2 ∧ dep.h = 128 ∧ dep.w = 128)
    ∧ (crossViewStub_forward f x ≠ none → ((f rgb).b = 2 ∨ (f rgb).b = 1)) := by
  have h1 : crossViewStub_forward f x = crossViewPost (softmaxChannels (f rgb)) := by
    unfold crossViewStub_forward
    rw [hrgb]
  refine ⟨fun hb1 hb2 => ?_, fun out hout => ?_, fun hne => ?_⟩
  · rw [h1, crossViewPost, if_neg]
    intro hg
    rcases hg.2.1 with h | h
    · exact hb2 h
    · exact hb1 h
  · rw [h1] at hout
    by_cases hg : 2 ≤ (softmaxChannels (f rgb)).c
        ∧ ((softmaxChannels (f rgb)).b = 2 ∨ (softmaxChannels (f rgb)).b = 1)
        ∧ ((softmaxChannels (f rgb)).h = 128 ∨ (softmaxChannels (f rgb)).h = 1)
        ∧ ((softmaxChannels (f rgb)).w = 128 ∨ (softmaxChannels (f rgb)).w = 1)
    · rw [crossViewPost, if_pos hg] at hout
      obtain rfl := Option.some.inj hout.symm
      refine ⟨crossViewPred (softmaxChannels (f rgb)), zerosT4 2 2 128 128, ?_, ?_,
        rfl, rfl, rfl, rfl, rfl, rfl, rfl, rfl⟩
      · simp [lookupB]
      · simp [lookupB]
    · rw [crossViewPost, if_neg hg] at hout
      exact absurd hout (by simp)
  · by_cases hg : 2 ≤ (softmaxChannels (f rgb)).c
        ∧ ((softmaxChannels (f rgb)).b = 2 ∨ (softmaxChannels (f rgb)).b = 1)
        ∧ ((softmaxChannels (f rgb)).h = 128 ∨ (softmaxChannels (f rgb)).h = 1)
        ∧ ((softmaxChannels (f rgb)).w = 128 ∨ (softmaxChannels (f rgb)).w = 1)
    · exact hg.2.1
    · rw [h1, crossViewPost, if_neg hg] at hne
      exact absurd rfl hne

/-- Witness for C8's amended statement at a batch-2 foreign model. -/
theorem c8_witness :
    lookupB "rgb_large" [("rgb_large", zerosT4 2 3 128 128)] = some (zerosT4 2 3 128 128)
    ∧ ∃ out occ, crossViewStub_forward (fun _ => zerosT4 2 2 128 128)
          [("rgb_large", zerosT4 2 3 128 128)] = some out
        ∧ lookupB "occ_estimate" out = some occ ∧ occ.b = 2 := by
  refine ⟨rfl, ?_⟩
  obtain ⟨out, hout⟩ : ∃ out, crossViewStub_forward (fun _ => zerosT4 2 2 128 128)
      [("rgb_large", zerosT4 2 3 128 128)] = some out := ⟨_, rfl⟩
  obtain ⟨occ, dep, hocc, hdep, hb2, -⟩ :=
    (c8_hardcoded_batch_two (fun _ => zerosT4 2 2 128 128)
      [("rgb_large", zerosT4 2 3 128 128)] (zerosT4 2 3 128 128) rfl).2.1 out hout
  exact ⟨out, occ, hout, hocc, hb2⟩

/-- Counterexample to C8 as stated: a batch-1 `rgb_large` input fed to a
batch-preserving foreign model broadcasts into the batch-2 destination
slice, so the forward call is well-formed for a batch size other than 2. -/
theorem c8_counterexample :
    (lookupB "rgb_large" [("rgb_large", zerosT4 1 3 128 128)]).map Tensor4.b = some 1
    ∧ ∃ out, crossViewStub_forward (fun t => zerosT4 t.b 2 128 128)
          [("rgb_large", zerosT4 1 3 128 128)] = some out :=
  ⟨rfl, ⟨_, rfl⟩⟩
